import Mathlib

/-
Verification of the chart-builder functions of pages/1_Graficos.py.

The embedding models the three builders plot_line_chart, plot_dual_line_chart
and plot_bar_chart as pure functions from a tabular data frame plus styling
arguments to a declarative figure, with the failure behaviour of the
underlying dataframe library (polars) and plotting library (plotly express)
made explicit through an error sum type:
  - a polars operation on a missing column (sort, with_columns, column
    indexing) raises ColumnNotFoundError naming the column;
  - plotly express resolves the x / y / text arguments itself and raises a
    generic ValueError naming the argument and the column when the column is
    absent from the frame.
Dates are triples of numerals, numeric cells are rationals (the Python
divisions in play are exact decimal scalings), and a frame is a header of
column names plus a list of rows.
-/

namespace Graficos

/-- A calendar date, as stored in the date columns of the frames. -/
structure Date where
  year : Nat
  month : Nat
  day : Nat
deriving DecidableEq

/-- Sort key for dates: lexicographic on (year, month, day) for any real
date (month and day are below 32). -/
def Date.key (d : Date) : Nat :=
  (d.year * 32 + d.month) * 32 + d.day

/-- English month names as used by strftime with the B directive. -/
def monthName : Nat → String
  | 1 => "January"
  | 2 => "February"
  | 3 => "March"
  | 4 => "April"
  | 5 => "May"
  | 6 => "June"
  | 7 => "July"
  | 8 => "August"
  | 9 => "September"
  | 10 => "October"
  | 11 => "November"
  | 12 => "December"
  | _ => ""

/-- Two-digit zero-padded year, the y directive of strftime. -/
def twoDigitYear (y : Nat) : String :=
  (if y % 100 < 10 then "0" else "") ++ toString (y % 100)

/-- Interpreter for the strftime directives the source uses: B (full month
name), Y (full year), y (two-digit year), d (day); other characters are
copied verbatim. -/
def strftimeAux : List Char → Date → List Char
  | [], _ => []
  | '%' :: c :: rest, d =>
    (match c with
     | 'B' => (monthName d.month).toList
     | 'Y' => (toString d.year).toList
     | 'y' => (twoDigitYear d.year).toList
     | 'd' => (toString d.day).toList
     | c0 => ['%', c0]) ++ strftimeAux rest d
  | c :: rest, d => c :: strftimeAux rest d

/-- Format a date with a strftime format string. -/
def Date.strftime (fmt : String) (d : Date) : String :=
  String.mk (strftimeAux fmt.toList d)

/-- A cell of a data frame: a date, a rational number, or a string. -/
inductive Value where
  | vdate : Date → Value
  | vnum : ℚ → Value
  | vstr : String → Value
deriving DecidableEq

instance : Inhabited Value := ⟨Value.vstr ""⟩

/-- Constructor rank, used to totalise the cell ordering across kinds (a
real polars column is homogeneous, so the cross-kind branch is never hit by
data a polars frame can hold). -/
def Value.rank : Value → Nat
  | .vdate _ => 0
  | .vnum _ => 1
  | .vstr _ => 2

/-- Total boolean ordering on cells: dates by calendar order, numbers and
strings by their standard orders, distinct kinds by rank. -/
def Value.leb : Value → Value → Bool
  | .vdate a, .vdate b => a.key ≤ b.key
  | .vnum a, .vnum b => a ≤ b
  | .vstr a, .vstr b => a ≤ b
  | a, b => a.rank ≤ b.rank

/-- Division of a numeric cell by a scalar, as the polars expression
col / scale_factor maps it over a column; non-numeric cells are untouched. -/
def Value.scaleDiv (k : ℚ) : Value → Value
  | .vnum q => .vnum (q / k)
  | v => v

/-- Render a date cell with strftime, as the list comprehensions over a
date column do; non-date cells render as the empty string. -/
def Value.strf (fmt : String) : Value → String
  | .vdate d => Date.strftime fmt d
  | _ => ""

/-- Cell of a row at a column index; default cell past the end. -/
def cellAt : List Value → Nat → Value
  | [], _ => default
  | a :: _, 0 => a
  | _ :: t, i + 1 => cellAt t i

/-- Apply a function to the cell at one index of a row, leaving every other
cell as it is. -/
def applyAt (i : Nat) (f : Value → Value) : List Value → List Value
  | [] => []
  | a :: t =>
    match i with
    | 0 => f a :: t
    | j + 1 => a :: applyAt j f t

/-- A data frame: a header of column names and a list of rows, each row a
list of cells aligned with the header. -/
structure Frame where
  header : List String
  rows : List (List Value)
deriving DecidableEq

/-- Errors a builder call can surface: the dataframe library's
ColumnNotFoundError naming the missing column, or the plotting library's
ValueError naming the argument (x, y or text) and the column it failed to
resolve. -/
inductive PlotError where
  | columnNotFound : String → PlotError
  | plotlyValueError : String → String → PlotError
deriving DecidableEq

/-- Discriminator for the ColumnNotFound error kind. -/
def PlotError.isColumnNotFound : PlotError → Bool
  | .columnNotFound _ => true
  | _ => false

/-- Index of a column in the header. -/
def Frame.colIdx (df : Frame) (c : String) : Nat :=
  df.header.indexOf c

/-- Whether a column name is present in the frame. -/
def Frame.hasCol (df : Frame) (c : String) : Bool :=
  df.header.contains c

/-- The cells of one column, in row order. -/
def Frame.col (df : Frame) (c : String) : List Value :=
  df.rows.map (fun r => cellAt r (df.colIdx c))

/-- Column indexing df[c] of the dataframe library: the column values, or
ColumnNotFoundError when the name is absent. -/
def Frame.getColE (df : Frame) (c : String) : Except PlotError (List Value) :=
  if df.hasCol c then .ok (df.col c) else .error (.columnNotFound c)

/-- Row ordering by the cells of the column at index i. -/
def rowLe (i : Nat) (r s : List Value) : Bool :=
  Value.leb (cellAt r i) (cellAt s i)

/-- Insert an element into a list ahead of the first element it is below,
keeping an ascending list ascending. -/
def insertRow {α : Type} (le : α → α → Bool) (a : α) : List α → List α
  | [] => [a]
  | b :: t => if le a b then a :: b :: t else b :: insertRow le a t

/-- Insertion sort: the ascending reordering a dataframe sort produces. -/
def insSort {α : Type} (le : α → α → Bool) : List α → List α
  | [] => []
  | a :: t => insertRow le a (insSort le t)

/-- Rows reordered ascending by the named column. -/
def Frame.sortBy (df : Frame) (c : String) : Frame :=
  ⟨df.header, insSort (rowLe (df.colIdx c)) df.rows⟩

/-- The dataframe sort operation df.sort(col): the sorted frame, or
ColumnNotFoundError when the column is absent. -/
def Frame.sortE (df : Frame) (c : String) : Except PlotError Frame :=
  if df.hasCol c then .ok (df.sortBy c) else .error (.columnNotFound c)

/-- The dataframe tail operation df.tail(n) on a Python int n: the last n
rows for n ≥ 0 (all rows when fewer than n exist, none for n = 0), and all
rows but the first |n| for negative n. -/
def Frame.tailI (df : Frame) (n : Int) : Frame :=
  ⟨df.header,
   if 0 ≤ n then df.rows.drop (df.rows.length - n.toNat)
   else df.rows.drop (-n).toNat⟩

/-- The frame with every cell of column c divided by k, other columns
untouched. -/
def Frame.scaleBy (df : Frame) (c : String) (k : ℚ) : Frame :=
  ⟨df.header, df.rows.map (applyAt (df.colIdx c) (Value.scaleDiv k))⟩

/-- The with_columns(col(c) / k) operation: the scaled frame, or
ColumnNotFoundError when c is absent. -/
def Frame.withColDivE (df : Frame) (c : String) (k : ℚ) : Except PlotError Frame :=
  if df.hasCol c then .ok (df.scaleBy c k) else .error (.columnNotFound c)

/-- Column resolution performed by plotly express for an x / y / text
argument: the column values, or the library's ValueError naming the argument
and the column when it is absent. -/
def pxCol (df : Frame) (arg c : String) : Except PlotError (List Value) :=
  if df.hasCol c then .ok (df.col c) else .error (.plotlyValueError arg c)

/-- One trace of a figure: point data, text labels with their template, and
styling. -/
structure Series where
  sname : Option String
  xs : List Value
  ys : List Value
  text : List Value
  texttemplate : String
  textposition : String
  color : String
deriving DecidableEq

/-- The x axis of a figure: explicit tick values, their formatted labels,
and the label rotation. -/
structure Axis where
  tickvals : List Value
  ticktext : List String
  tickangle : Int
deriving DecidableEq

/-- A declarative figure: title, traces, x-axis configuration and legend
visibility. -/
structure Figure where
  title : String
  series : List Series
  xaxis : Axis
  showlegend : Bool
deriving DecidableEq

/-- Whether a builder call produced a figure rather than an error. -/
def isOkB : Except PlotError Figure → Bool
  | .ok _ => true
  | .error _ => false

/-- FORMAT_TEMPLATES number entry. -/
def FORMAT_TEMPLATES_number : String := "\x7btext:,.0f\x7d"

/-- FORMAT_TEMPLATES percentage entry. -/
def FORMAT_TEMPLATES_percentage : String := "\x7btext:.1%\x7d"

/-- FORMAT_TEMPLATES currency entry. -/
def FORMAT_TEMPLATES_currency : String := "$\x7btext:,.0f\x7dM"

/-- FORMAT_TEMPLATES decimal entry. -/
def FORMAT_TEMPLATES_decimal : String := "\x7btext:,.2f\x7d"

/-- CHART_DEFAULTS n_points entry. -/
def CHART_DEFAULTS_n_points : Int := 12

/-- CHART_DEFAULTS tick_angle entry. -/
def CHART_DEFAULTS_tick_angle : Int := 45

/-- CHART_DEFAULTS date_format entry. -/
def CHART_DEFAULTS_date_format : String := "%B %y"

/-- CHART_DEFAULTS text_position entry. -/
def CHART_DEFAULTS_text_position : String := "top center"

/-- CHART_COLORS orange entry. -/
def CHART_COLORS_orange : String := "#FF6200"

/-- CHART_COLORS blue entry. -/
def CHART_COLORS_blue : String := "#0131FF"

/-- CHART_COLORS gray entry. -/
def CHART_COLORS_gray : String := "#C7D2FF"

/-- The text template the line chart installs around a y format string, the
f-string interpolation of y_format after a percent sign inside the bold
wrapper. -/
def lineTemplate (y_format : String) : String :=
  "<b style=\"color:white;\">%" ++ y_format ++ "</b>"

/-- The fixed text template of the bar chart: the currency format template
inside the bold wrapper, with no percent sign and no per-call parameter. -/
def barTemplate : String :=
  "<b style=\"color:white;\">" ++ FORMAT_TEMPLATES_currency ++ "</b>"

/-- Figure construction of plot_line_chart after the window plot_data has
been computed: plotly express resolves the x, y and text columns, then
update_traces and update_layout install the template, styling and the
formatted tick labels. -/
def lineFigure (plot_data : Frame) (date_col y_values y_format title color : String)
    (tick_angle : Int) (date_format : String) : Except PlotError Figure := do
  let xs ← pxCol plot_data "x" date_col
  let ys ← pxCol plot_data "y" y_values
  let texts ← pxCol plot_data "text" y_values
  let ticks ← plot_data.getColE date_col
  pure
    { title := title
      series := [{ sname := none, xs := xs, ys := ys, text := texts,
                   texttemplate := lineTemplate y_format,
                   textposition := CHART_DEFAULTS_text_position,
                   color := color }]
      xaxis := { tickvals := ticks,
                 ticktext := ticks.map (Value.strf date_format),
                 tickangle := tick_angle }
      showlegend := false }

/-- Embedding of plot_line_chart: sort by the date column, take the last
n_points rows, and build the figure from that window. -/
def plot_line_chart (df : Frame) (date_col y_values y_format title color : String)
    (n_points tick_angle : Int) (date_format : String) :
    Except PlotError Figure := do
  let sorted ← df.sortE date_col
  lineFigure (sorted.tailI n_points) date_col y_values y_format title color
    tick_angle date_format

/-- Figure construction of plot_dual_line_chart after the window plot_data
has been computed: two go.Scatter traces whose columns are read by dataframe
indexing, each with its own format template, then the shared tick labels. -/
def dualFigure (plot_data : Frame) (date_col y1_col y2_col title y1_name y2_name
    y1_color y2_color y1_format y2_format date_format : String)
    (tick_angle : Int) : Except PlotError Figure := do
  let x1 ← plot_data.getColE date_col
  let ya ← plot_data.getColE y1_col
  let x2 ← plot_data.getColE date_col
  let yb ← plot_data.getColE y2_col
  let ticks ← plot_data.getColE date_col
  pure
    { title := title
      series := [{ sname := some y1_name, xs := x1, ys := ya, text := ya,
                   texttemplate := "%" ++ y1_format,
                   textposition := CHART_DEFAULTS_text_position,
                   color := y1_color },
                 { sname := some y2_name, xs := x2, ys := yb, text := yb,
                   texttemplate := "%" ++ y2_format,
                   textposition := CHART_DEFAULTS_text_position,
                   color := y2_color }]
      xaxis := { tickvals := ticks,
                 ticktext := ticks.map (Value.strf date_format),
                 tickangle := tick_angle }
      showlegend := true }

/-- Embedding of plot_dual_line_chart: sort by the date column, take the
last n_points rows, and build the two-trace figure from that window. -/
def plot_dual_line_chart (df : Frame) (date_col y1_col y2_col title y1_name y2_name
    y1_color y2_color y1_format y2_format date_format : String)
    (tick_angle n_points : Int) : Except PlotError Figure := do
  let sorted ← df.sortE date_col
  dualFigure (sorted.tailI n_points) date_col y1_col y2_col title y1_name y2_name
    y1_color y2_color y1_format y2_format date_format tick_angle

/-- Figure construction of plot_bar_chart after the window plot_data has
been computed: plotly express resolves the x and y columns, then
update_traces installs the fixed currency template and update_layout the
tick labels under the fixed format month + full year. -/
def barFigure (plot_data : Frame) (x_axis y_values title color : String) :
    Except PlotError Figure := do
  let xs ← pxCol plot_data "x" x_axis
  let ys ← pxCol plot_data "y" y_values
  let ticks ← plot_data.getColE x_axis
  pure
    { title := title
      series := [{ sname := none, xs := xs, ys := ys, text := [],
                   texttemplate := barTemplate,
                   textposition := "outside",
                   color := color }]
      xaxis := { tickvals := ticks,
                 ticktext := ticks.map (Value.strf "%B %Y"),
                 tickangle := CHART_DEFAULTS_tick_angle }
      showlegend := false }

/-- Embedding of plot_bar_chart: divide the value_column by scale_factor,
take the last n_points rows (no sort), and build the bar figure from that
window. -/
def plot_bar_chart (df : Frame) (x_axis y_values title color value_column : String)
    (scale_factor : ℚ) (n_points : Int) : Except PlotError Figure := do
  let scaled ← df.withColDivE value_column scale_factor
  barFigure (scaled.tailI n_points) x_axis y_values title color

/-
State-threaded variants, recording what each builder call does to the frame
object it received. Each dataframe-library call is modelled as returning its
result together with the post-call state of the receiver: per the library's
semantics, sort, with_columns, tail and column indexing all allocate fresh
data and leave the receiver exactly as it was.
-/

/-- Effect of df.sort(col) on its receiver: the sorted result is a fresh
frame and the receiver is returned unchanged. -/
def Frame.sortCall (df : Frame) (c : String) : Except PlotError Frame × Frame :=
  (df.sortE c, df)

/-- Effect of df.with_columns(col / k) on its receiver: fresh result,
receiver unchanged. -/
def Frame.withColDivCall (df : Frame) (c : String) (k : ℚ) :
    Except PlotError Frame × Frame :=
  (df.withColDivE c k, df)

/-- plot_line_chart with the fate of the caller's frame made explicit: the
function reads df only in the initial sort, and the pair records the state
of df after the call, on success and on failure alike. -/
def plot_line_chart_st (df : Frame) (date_col y_values y_format title color : String)
    (n_points tick_angle : Int) (date_format : String) :
    Except PlotError Figure × Frame :=
  let (sortedE, dfAfter) := df.sortCall date_col
  (sortedE.bind fun sorted =>
    lineFigure (sorted.tailI n_points) date_col y_values y_format title color
      tick_angle date_format, dfAfter)

/-- plot_dual_line_chart with the fate of the caller's frame made
explicit. -/
def plot_dual_line_chart_st (df : Frame) (date_col y1_col y2_col title y1_name
    y2_name y1_color y2_color y1_format y2_format date_format : String)
    (tick_angle n_points : Int) : Except PlotError Figure × Frame :=
  let (sortedE, dfAfter) := df.sortCall date_col
  (sortedE.bind fun sorted =>
    dualFigure (sorted.tailI n_points) date_col y1_col y2_col title y1_name y2_name
      y1_color y2_color y1_format y2_format date_format tick_angle, dfAfter)

/-- plot_bar_chart with the fate of the caller's frame made explicit. -/
def plot_bar_chart_st (df : Frame) (x_axis y_values title color value_column : String)
    (scale_factor : ℚ) (n_points : Int) : Except PlotError Figure × Frame :=
  let (scaledE, dfAfter) := df.withColDivCall value_column scale_factor
  (scaledE.bind fun scaled =>
    barFigure (scaled.tailI n_points) x_axis y_values title color, dfAfter)

/-
Extractors over builder results, and concrete frames used to instantiate the
theorems.
-/

/-- The empty trace, default for extraction from an errored call. -/
def noSeries : Series :=
  { sname := none, xs := [], ys := [], text := [], texttemplate := "",
    textposition := "", color := "" }

/-- First trace of a successful builder call; empty trace on error. -/
def firstSeries : Except PlotError Figure → Series
  | .ok fig => fig.series.headD noSeries
  | .error _ => noSeries

/-- X data of the first trace. -/
def firstXs (r : Except PlotError Figure) : List Value :=
  (firstSeries r).xs

/-- Tick labels of a successful builder call; empty on error. -/
def tickTexts : Except PlotError Figure → List String
  | .ok fig => fig.xaxis.ticktext
  | .error _ => []

/-- Tick values of a successful builder call; empty on error. -/
def tickVals : Except PlotError Figure → List Value
  | .ok fig => fig.xaxis.tickvals
  | .error _ => []

/-- January, February and March 2022, the month starts of the demo data. -/
def dJan : Date := ⟨2022, 1, 1⟩

/-- February 2022. -/
def dFeb : Date := ⟨2022, 2, 1⟩

/-- March 2022. -/
def dMar : Date := ⟨2022, 3, 1⟩

/-- A three-row frame with its date column out of order. -/
def demoRows3 : Frame :=
  ⟨["date", "v"],
   [[.vdate dMar, .vnum 150], [.vdate dJan, .vnum 100], [.vdate dFeb, .vnum 200]]⟩

/-- A two-metric frame for the dual chart, dates out of order. -/
def dualRows : Frame :=
  ⟨["date", "Value1", "Value2"],
   [[.vdate dFeb, .vnum 12, .vnum 2], [.vdate dJan, .vnum 11, .vnum 1]]⟩

/-- A frame for the bar chart with dates out of order and a monetary
column. -/
def barRows : Frame :=
  ⟨["date", "Monto_Efectivo"],
   [[.vdate dMar, .vnum 3000000], [.vdate dJan, .vnum 1000000],
    [.vdate dFeb, .vnum 2000000]]⟩

/-- A one-row frame whose monetary value is 2,500,000. -/
def barRow25 : Frame :=
  ⟨["date", "Monto_Efectivo"], [[.vdate dJan, .vnum 2500000]]⟩

/-- A frame with a plotted column distinct from the monetary column. -/
def barRowsDistinct : Frame :=
  ⟨["date", "v", "Monto_Efectivo"],
   [[.vdate dJan, .vnum 7, .vnum 2500000], [.vdate dFeb, .vnum 8, .vnum 3500000]]⟩

/-- A frame with a duplicated date. -/
def dupRows : Frame :=
  ⟨["date", "v"], [[.vdate dJan, .vnum 100], [.vdate dJan, .vnum 200]]⟩

/-
Reduction lemmas.
-/

/-- Bind on a successful Except computes the continuation. -/
@[simp] theorem exceptBindOk {α β : Type} (a : α) (f : α → Except PlotError β) :
    (Except.ok a : Except PlotError α).bind f = f a := rfl

/-- Bind on a failed Except propagates the error. -/
@[simp] theorem exceptBindErr {α β : Type} (e : PlotError) (f : α → Except PlotError β) :
    (Except.error e : Except PlotError α).bind f = .error e := rfl

/-- Monadic bind on Except is Except.bind. -/
@[simp] theorem exceptBindEq {α β : Type} (x : Except PlotError α)
    (f : α → Except PlotError β) : x >>= f = x.bind f := rfl

/-- Monadic pure on Except is Except.ok. -/
@[simp] theorem exceptPureEq {α : Type} (a : α) :
    (pure a : Except PlotError α) = .ok a := rfl

/-- Sorting does not change the header. -/
@[simp] theorem Frame.header_sortBy (df : Frame) (c : String) :
    (df.sortBy c).header = df.header := rfl

/-- Windowing does not change the header. -/
@[simp] theorem Frame.header_tailI (df : Frame) (n : Int) :
    (df.tailI n).header = df.header := rfl

/-- Scaling does not change the header. -/
@[simp] theorem Frame.header_scaleBy (df : Frame) (c : String) (k : ℚ) :
    (df.scaleBy c k).header = df.header := rfl

/-- Column presence only depends on the header. -/
theorem Frame.hasCol_of_header {df df2 : Frame} (h : df2.header = df.header)
    (c : String) : df2.hasCol c = df.hasCol c := by
  simp [Frame.hasCol, h]

/-- Column presence is preserved by sorting. -/
@[simp] theorem Frame.hasCol_sortBy (df : Frame) (c c2 : String) :
    (df.sortBy c2).hasCol c = df.hasCol c := rfl

/-- Column presence is preserved by windowing. -/
@[simp] theorem Frame.hasCol_tailI (df : Frame) (n : Int) (c : String) :
    (df.tailI n).hasCol c = df.hasCol c := rfl

/-- Column presence is preserved by scaling. -/
@[simp] theorem Frame.hasCol_scaleBy (df : Frame) (c c2 : String) (k : ℚ) :
    (df.scaleBy c2 k).hasCol c = df.hasCol c := rfl

/-- Column index is preserved by sorting, windowing and scaling. -/
@[simp] theorem Frame.colIdx_tailI (df : Frame) (n : Int) (c : String) :
    (df.tailI n).colIdx c = df.colIdx c := rfl

/-- The number of cells of a column is the number of rows. -/
theorem Frame.col_length (df : Frame) (c : String) :
    (df.col c).length = df.rows.length := by
  simp [Frame.col]

/-- When every referenced column exists, lineFigure returns the fully
explicit figure. -/
theorem lineFigure_ok (w : Frame) (date_col y_values y_format title color : String)
    (tick_angle : Int) (date_format : String)
    (hd : w.hasCol date_col = true) (hy : w.hasCol y_values = true) :
    lineFigure w date_col y_values y_format title color tick_angle date_format =
      .ok { title := title
            series := [{ sname := none, xs := w.col date_col, ys := w.col y_values,
                         text := w.col y_values,
                         texttemplate := lineTemplate y_format,
                         textposition := CHART_DEFAULTS_text_position,
                         color := color }]
            xaxis := { tickvals := w.col date_col,
                       ticktext := (w.col date_col).map (Value.strf date_format),
                       tickangle := tick_angle }
            showlegend := false } := by
  simp [lineFigure, pxCol, Frame.getColE, hd, hy]

/-- When every referenced column exists, dualFigure returns the fully
explicit two-trace figure. -/
theorem dualFigure_ok (w : Frame) (date_col y1_col y2_col title y1_name y2_name
    y1_color y2_color y1_format y2_format date_format : String) (tick_angle : Int)
    (hd : w.hasCol date_col = true) (h1 : w.hasCol y1_col = true)
    (h2 : w.hasCol y2_col = true) :
    dualFigure w date_col y1_col y2_col title y1_name y2_name y1_color y2_color
        y1_format y2_format date_format tick_angle =
      .ok { title := title
            series := [{ sname := some y1_name, xs := w.col date_col,
                         ys := w.col y1_col, text := w.col y1_col,
                         texttemplate := "%" ++ y1_format,
                         textposition := CHART_DEFAULTS_text_position,
                         color := y1_color },
                       { sname := some y2_name, xs := w.col date_col,
                         ys := w.col y2_col, text := w.col y2_col,
                         texttemplate := "%" ++ y2_format,
                         textposition := CHART_DEFAULTS_text_position,
                         color := y2_color }]
            xaxis := { tickvals := w.col date_col,
                       ticktext := (w.col date_col).map (Value.strf date_format),
                       tickangle := tick_angle }
            showlegend := true } := by
  simp [dualFigure, Frame.getColE, hd, h1, h2]

/-- When every referenced column exists, barFigure returns the fully
explicit figure. -/
theorem barFigure_ok (w : Frame) (x_axis y_values title color : String)
    (hx : w.hasCol x_axis = true) (hy : w.hasCol y_values = true) :
    barFigure w x_axis y_values title color =
      .ok { title := title
            series := [{ sname := none, xs := w.col x_axis, ys := w.col y_values,
                         text := [],
                         texttemplate := barTemplate,
                         textposition := "outside",
                         color := color }]
            xaxis := { tickvals := w.col x_axis,
                       ticktext := (w.col x_axis).map (Value.strf "%B %Y"),
                       tickangle := CHART_DEFAULTS_tick_angle }
            showlegend := false } := by
  simp [barFigure, pxCol, Frame.getColE, hx, hy]

/-- When the date column exists, plot_line_chart reduces to lineFigure on
the sorted window. -/
theorem plot_line_chart_eq (df : Frame)
    (date_col y_values y_format title color : String)
    (n_points tick_angle : Int) (date_format : String)
    (hd : df.hasCol date_col = true) :
    plot_line_chart df date_col y_values y_format title color n_points tick_angle
        date_format =
      lineFigure ((df.sortBy date_col).tailI n_points) date_col y_values y_format
        title color tick_angle date_format := by
  simp [plot_line_chart, Frame.sortE, hd]

/-- When the date column exists, plot_dual_line_chart reduces to dualFigure
on the sorted window. -/
theorem plot_dual_line_chart_eq (df : Frame) (date_col y1_col y2_col title y1_name
    y2_name y1_color y2_color y1_format y2_format date_format : String)
    (tick_angle n_points : Int)
    (hd : df.hasCol date_col = true) :
    plot_dual_line_chart df date_col y1_col y2_col title y1_name y2_name y1_color
        y2_color y1_format y2_format date_format tick_angle n_points =
      dualFigure ((df.sortBy date_col).tailI n_points) date_col y1_col y2_col title
        y1_name y2_name y1_color y2_color y1_format y2_format date_format
        tick_angle := by
  simp [plot_dual_line_chart, Frame.sortE, hd]

/-- When the value column exists, plot_bar_chart reduces to barFigure on the
scaled window. -/
theorem plot_bar_chart_eq (df : Frame) (x_axis y_values title color value_column :
    String) (scale_factor : ℚ) (n_points : Int)
    (hv : df.hasCol value_column = true) :
    plot_bar_chart df x_axis y_values title color value_column scale_factor
        n_points =
      barFigure ((df.scaleBy value_column scale_factor).tailI n_points) x_axis
        y_values title color := by
  simp [plot_bar_chart, Frame.withColDivE, hv]

/-
Ordering lemmas for the sort.
-/

/-- The cell ordering is transitive. -/
theorem Value.leb_trans (a b c : Value) (hab : Value.leb a b = true)
    (hbc : Value.leb b c = true) : Value.leb a c = true := by
  cases a <;> cases b <;> cases c <;>
    simp only [Value.leb, Value.rank, decide_eq_true_eq] at hab hbc ⊢ <;>
    first
      | rfl
      | omega
      | exact le_trans hab hbc

/-- The cell ordering is total. -/
theorem Value.leb_total (a b : Value) :
    (Value.leb a b || Value.leb b a) = true := by
  cases a <;> cases b <;>
    simp only [Value.leb, Value.rank, Bool.or_eq_true, decide_eq_true_eq] <;>
    first
      | omega
      | exact le_total _ _

/-- The row ordering by a column is transitive. -/
theorem rowLe_trans (i : Nat) (r s t : List Value) (hrs : rowLe i r s = true)
    (hst : rowLe i s t = true) : rowLe i r t = true :=
  Value.leb_trans _ _ _ hrs hst

/-- The row ordering by a column is total. -/
theorem rowLe_total (i : Nat) (r s : List Value) :
    (rowLe i r s || rowLe i s r) = true :=
  Value.leb_total _ _

/-- Boolean check that adjacent cells of a list are ascending. -/
def chainLeb : List Value → Bool
  | [] => true
  | [_] => true
  | a :: b :: t => Value.leb a b && chainLeb (b :: t)

/-- A pairwise-ascending list of cells is adjacent-ascending. -/
theorem chainLeb_of_pairwise : ∀ {l : List Value},
    l.Pairwise (fun a b => Value.leb a b = true) → chainLeb l = true := by
  intro l hl
  induction l with
  | nil => rfl
  | cons a t ih =>
    cases t with
    | nil => rfl
    | cons b t2 =>
      rcases List.pairwise_cons.mp hl with ⟨hhead, htail⟩
      simp only [chainLeb, Bool.and_eq_true]
      exact ⟨hhead b (by simp), ih htail⟩

/-- Membership in an insertion is membership in the list or being the
inserted element. -/
theorem mem_insertRow {α : Type} (le : α → α → Bool) (a x : α) :
    ∀ l : List α, x ∈ insertRow le a l ↔ x = a ∨ x ∈ l := by
  intro l
  induction l with
  | nil => simp [insertRow]
  | cons b t ih =>
    by_cases h : le a b = true
    · simp only [insertRow, if_pos h, List.mem_cons]
    · simp only [insertRow, if_neg h, List.mem_cons, ih]
      tauto

/-- Inserting into a pairwise-ascending list keeps it pairwise ascending,
for a transitive total ordering. -/
theorem pairwise_insertRow {α : Type} (le : α → α → Bool)
    (htr : ∀ a b c : α, le a b = true → le b c = true → le a c = true)
    (hto : ∀ a b : α, (le a b || le b a) = true) (a : α) :
    ∀ l : List α, l.Pairwise (fun r s => le r s = true) →
      (insertRow le a l).Pairwise (fun r s => le r s = true) := by
  intro l
  induction l with
  | nil => intro _; simp [insertRow]
  | cons b t ih =>
    intro hl
    rcases List.pairwise_cons.mp hl with ⟨hb, ht⟩
    by_cases h : le a b = true
    · have he : insertRow le a (b :: t) = a :: b :: t := by
        simp only [insertRow, if_pos h]
      rw [he]
      refine List.pairwise_cons.mpr ⟨?_, hl⟩
      intro x hx
      rcases List.mem_cons.mp hx with hx | hx
      · exact hx ▸ h
      · exact htr a b x h (hb x hx)
    · have he : insertRow le a (b :: t) = b :: insertRow le a t := by
        simp only [insertRow, if_neg h]
      rw [he]
      refine List.pairwise_cons.mpr ⟨?_, ih ht⟩
      intro x hx
      rcases (mem_insertRow le a x t).mp hx with hx | hx
      · rw [hx]
        have hab := hto a b
        rcases Bool.or_eq_true_iff.mp hab with h2 | h2
        · exact absurd h2 h
        · exact h2
      · exact hb x hx

/-- An insertion sort under a transitive total ordering is pairwise
ascending. -/
theorem pairwise_insSort {α : Type} (le : α → α → Bool)
    (htr : ∀ a b c : α, le a b = true → le b c = true → le a c = true)
    (hto : ∀ a b : α, (le a b || le b a) = true) :
    ∀ l : List α, (insSort le l).Pairwise (fun r s => le r s = true) := by
  intro l
  induction l with
  | nil => simp [insSort]
  | cons a t ih => exact pairwise_insertRow le htr hto a _ ih

/-- Insertion grows a list by one element. -/
theorem length_insertRow {α : Type} (le : α → α → Bool) (a : α) :
    ∀ l : List α, (insertRow le a l).length = l.length + 1 := by
  intro l
  induction l with
  | nil => rfl
  | cons b t ih =>
    by_cases h : le a b = true
    · simp [insertRow, h]
    · simp [insertRow, h, ih]

/-- Insertion sort preserves length. -/
theorem length_insSort {α : Type} (le : α → α → Bool) :
    ∀ l : List α, (insSort le l).length = l.length := by
  intro l
  induction l with
  | nil => rfl
  | cons a t ih => simp [insSort, length_insertRow, ih]

/-- The rows of a sorted frame are pairwise ascending in the sort column. -/
theorem sortBy_rows_pairwise (df : Frame) (c : String) :
    (df.sortBy c).rows.Pairwise (fun r s => rowLe (df.colIdx c) r s = true) :=
  pairwise_insSort (rowLe (df.colIdx c)) (rowLe_trans (df.colIdx c))
    (rowLe_total (df.colIdx c)) df.rows

/-- The rows of a window of a frame are a sublist of the frame's rows. -/
theorem tailI_rows_sublist (df : Frame) (n : Int) :
    (df.tailI n).rows.Sublist df.rows := by
  unfold Frame.tailI
  by_cases h : 0 ≤ n <;> simp [h, List.drop_sublist]

/-- The sort column of the window of a sorted frame is adjacent-ascending. -/
theorem windowed_col_chain (df : Frame) (c : String) (n : Int) :
    chainLeb (((df.sortBy c).tailI n).col c) = true := by
  apply chainLeb_of_pairwise
  rw [Frame.col]
  rw [List.pairwise_map]
  have hw : ((df.sortBy c).tailI n).rows.Pairwise
      (fun r s => rowLe (df.colIdx c) r s = true) :=
    List.Pairwise.sublist (tailI_rows_sublist (df.sortBy c) n)
      (sortBy_rows_pairwise df c)
  exact hw.imp (fun {r s} h => h)

/-
Column and window computation lemmas.
-/

/-- Row count of a window for a nonnegative point count. -/
theorem tailI_rows_length_nonneg (df : Frame) (n : Int) (hn : 0 ≤ n) :
    (df.tailI n).rows.length = min n.toNat df.rows.length := by
  simp [Frame.tailI, hn]
  omega

/-- Row count of a window for a nonpositive point count. -/
theorem tailI_rows_length_nonpos (df : Frame) (n : Int) (hn : n ≤ 0) :
    (df.tailI n).rows.length =
      df.rows.length - (if n = 0 then df.rows.length else (-n).toNat) := by
  rcases lt_or_eq_of_le hn with h | h
  · have h0 : ¬ 0 ≤ n := by omega
    have hne : ¬ n = 0 := by omega
    simp [Frame.tailI, h0, hne]
  · subst h
    simp [Frame.tailI]

/-- A column of a window is the corresponding suffix of the column. -/
theorem tailI_col (df : Frame) (c : String) (n : Int) (hn : 0 ≤ n) :
    (df.tailI n).col c = (df.col c).drop (df.rows.length - n.toNat) := by
  simp [Frame.col, Frame.tailI, Frame.colIdx, hn, List.map_drop]

/-- Applying a function at an index leaves every other index unchanged. -/
theorem cellAt_applyAt_ne (f : Value → Value) :
    ∀ (r : List Value) (i j : Nat), i ≠ j →
      cellAt (applyAt i f r) j = cellAt r j := by
  intro r
  induction r with
  | nil => intro i j _; simp [applyAt]
  | cons a t ih =>
    intro i j hij
    cases i with
    | zero =>
      cases j with
      | zero => exact absurd rfl hij
      | succ j2 => simp [applyAt, cellAt]
    | succ i2 =>
      cases j with
      | zero => simp [applyAt, cellAt]
      | succ j2 =>
        simp only [applyAt, cellAt]
        exact ih i2 j2 (by omega)

/-- Applying a default-fixing function at an index rewrites that index. -/
theorem cellAt_applyAt_eq (f : Value → Value) (hf : f default = default) :
    ∀ (r : List Value) (i : Nat), cellAt (applyAt i f r) i = f (cellAt r i) := by
  intro r
  induction r with
  | nil => intro i; simp [applyAt, cellAt, hf]
  | cons a t ih =>
    intro i
    cases i with
    | zero => simp [applyAt, cellAt]
    | succ i2 =>
      simp only [applyAt, cellAt]
      exact ih i2

/-- Cell scaling fixes the default cell. -/
theorem scaleDiv_default (k : ℚ) : Value.scaleDiv k default = default := rfl

/-- Scaling one column leaves the cells of a column at a different index
unchanged. -/
theorem scaleBy_col_ne (df : Frame) (c c2 : String) (k : ℚ)
    (h : df.colIdx c ≠ df.colIdx c2) :
    (df.scaleBy c k).col c2 = df.col c2 := by
  simp only [Frame.col, Frame.scaleBy, List.map_map]
  apply List.map_congr_left
  intro r _
  exact cellAt_applyAt_ne _ r _ _ h

/-- Scaling a column divides each of its cells. -/
theorem scaleBy_col_eq (df : Frame) (c : String) (k : ℚ) :
    (df.scaleBy c k).col c = (df.col c).map (Value.scaleDiv k) := by
  simp only [Frame.col, Frame.scaleBy, List.map_map]
  apply List.map_congr_left
  intro r _
  exact cellAt_applyAt_eq _ (scaleDiv_default k) r _

/-- Row count is unchanged by scaling. -/
theorem scaleBy_rows_length (df : Frame) (c : String) (k : ℚ) :
    (df.scaleBy c k).rows.length = df.rows.length := by
  simp [Frame.scaleBy]

/-- Row count is unchanged by sorting. -/
theorem sortBy_rows_length (df : Frame) (c : String) :
    (df.sortBy c).rows.length = df.rows.length := by
  simp [Frame.sortBy, length_insSort]

/-- Distinct present columns have distinct indices. -/
theorem colIdx_ne_of_ne (df : Frame) (c c2 : String)
    (hc : df.hasCol c = true) (hc2 : df.hasCol c2 = true) (hne : c ≠ c2) :
    df.colIdx c ≠ df.colIdx c2 := by
  intro h
  apply hne
  have hm : c ∈ df.header := by
    simpa [Frame.hasCol] using hc
  have hm2 : c2 ∈ df.header := by
    simpa [Frame.hasCol] using hc2
  have h1 : df.header.indexOf c < df.header.length := List.indexOf_lt_length.mpr hm
  have hg : df.header.get ⟨df.header.indexOf c, h1⟩ = c := List.indexOf_get h1
  have h2 : df.header.indexOf c2 < df.header.length := List.indexOf_lt_length.mpr hm2
  have hg2 : df.header.get ⟨df.header.indexOf c2, h2⟩ = c2 := List.indexOf_get h2
  rw [← hg, ← hg2]
  simp only [Frame.colIdx] at h
  simp [h]

/-
Claim theorems.
-/

/-- C1: for every table with at least one row, both named columns present,
and every positive n_points, the series produced by plot_line_chart contains
exactly min(n_points, table row count) points; in particular, when the table
has fewer than n_points rows the window is all rows and no error is
raised. -/
theorem C1_line_window_point_count (df : Frame)
    (date_col y_values y_format title color : String)
    (n_points tick_angle : Int) (date_format : String)
    (hrows : df.rows ≠ []) (hd : df.hasCol date_col = true)
    (hy : df.hasCol y_values = true) (hn : 0 < n_points) :
    ∃ fig s, plot_line_chart df date_col y_values y_format title color n_points
        tick_angle date_format = .ok fig ∧ fig.series = [s] ∧
      s.xs.length = min n_points.toNat df.rows.length := by
  rw [plot_line_chart_eq df _ _ _ _ _ _ _ _ hd]
  rw [lineFigure_ok _ _ _ _ _ _ _ _ (by simp [hd]) (by simp [hy])]
  refine ⟨_, _, rfl, rfl, ?_⟩
  rw [Frame.col_length, tailI_rows_length_nonneg _ _ (le_of_lt hn),
    sortBy_rows_length]

/-- C1 witness: a three-row table with a twelve-point window yields all
three rows. -/
theorem C1_line_window_point_count_witness :
    ∃ fig s, plot_line_chart demoRows3 "date" "v" FORMAT_TEMPLATES_number
        "Line Chart" CHART_COLORS_orange 12 45 CHART_DEFAULTS_date_format =
        .ok fig ∧ fig.series = [s] ∧
      s.xs.length = min (12 : Int).toNat demoRows3.rows.length :=
  C1_line_window_point_count demoRows3 "date" "v" FORMAT_TEMPLATES_number
    "Line Chart" CHART_COLORS_orange 12 45 CHART_DEFAULTS_date_format
    (by decide) (by decide) (by decide) (by decide)

/-- C8: no builder call mutates its input table: in the state-threaded
embeddings of the three builders, the input frame after the call equals the
frame before it, whether the call succeeds or fails, and the result is the
one the plain builder computes. -/
theorem C8_no_input_mutation :
    (∀ (df : Frame) (date_col y_values y_format title color : String)
       (n_points tick_angle : Int) (date_format : String),
       (plot_line_chart_st df date_col y_values y_format title color n_points
          tick_angle date_format).2 = df ∧
       (plot_line_chart_st df date_col y_values y_format title color n_points
          tick_angle date_format).1 =
         plot_line_chart df date_col y_values y_format title color n_points
           tick_angle date_format) ∧
    (∀ (df : Frame) (date_col y1_col y2_col title y1_name y2_name y1_color
        y2_color y1_format y2_format date_format : String)
       (tick_angle n_points : Int),
       (plot_dual_line_chart_st df date_col y1_col y2_col title y1_name y2_name
          y1_color y2_color y1_format y2_format date_format tick_angle
          n_points).2 = df ∧
       (plot_dual_line_chart_st df date_col y1_col y2_col title y1_name y2_name
          y1_color y2_color y1_format y2_format date_format tick_angle
          n_points).1 =
         plot_dual_line_chart df date_col y1_col y2_col title y1_name y2_name
           y1_color y2_color y1_format y2_format date_format tick_angle
           n_points) ∧
    (∀ (df : Frame) (x_axis y_values title color value_column : String)
       (scale_factor : ℚ) (n_points : Int),
       (plot_bar_chart_st df x_axis y_values title color value_column
          scale_factor n_points).2 = df ∧
       (plot_bar_chart_st df x_axis y_values title color value_column
          scale_factor n_points).1 =
         plot_bar_chart df x_axis y_values title color value_column scale_factor
           n_points) := by
  refine ⟨?_, ?_, ?_⟩ <;> intros <;> exact ⟨rfl, rfl⟩

/-- C2 counterexample: plot_bar_chart on a table whose dates arrive in the
order March, January, February succeeds and returns those x values in input
order, not ascending — the bar builder never sorts. -/
theorem C2_output_sorted_counterexample :
    isOkB (plot_bar_chart barRows "date" "Monto_Efectivo" "Bar Chart"
        CHART_COLORS_orange "Monto_Efectivo" 1000000 12) = true ∧
    firstXs (plot_bar_chart barRows "date" "Monto_Efectivo" "Bar Chart"
        CHART_COLORS_orange "Monto_Efectivo" 1000000 12) =
      [.vdate dMar, .vdate dJan, .vdate dFeb] ∧
    chainLeb (firstXs (plot_bar_chart barRows "date" "Monto_Efectivo" "Bar Chart"
        CHART_COLORS_orange "Monto_Efectivo" 1000000 12)) = false := by
  refine ⟨rfl, rfl, rfl⟩

/-- C2 amended: the line and dual-line builders sort their window ascending
by the date column whatever the input row order; the bar builder does not
sort — its x values are the last n_points entries of the input x column in
the input row order. -/
theorem C2_output_sorted_amended :
    (∀ (df : Frame) (date_col y_values y_format title color : String)
       (n_points tick_angle : Int) (date_format : String),
       df.hasCol date_col = true → df.hasCol y_values = true →
       ∃ fig s, plot_line_chart df date_col y_values y_format title color
           n_points tick_angle date_format = .ok fig ∧
         fig.series = [s] ∧ chainLeb s.xs = true) ∧
    (∀ (df : Frame) (date_col y1_col y2_col title y1_name y2_name y1_color
        y2_color y1_format y2_format date_format : String)
       (tick_angle n_points : Int),
       df.hasCol date_col = true → df.hasCol y1_col = true →
       df.hasCol y2_col = true →
       ∃ fig s1 s2, plot_dual_line_chart df date_col y1_col y2_col title y1_name
           y2_name y1_color y2_color y1_format y2_format date_format tick_angle
           n_points = .ok fig ∧
         fig.series = [s1, s2] ∧ chainLeb s1.xs = true ∧ chainLeb s2.xs = true) ∧
    (∀ (df : Frame) (x_axis y_values title color value_column : String)
       (scale_factor : ℚ) (n_points : Int),
       df.hasCol x_axis = true → df.hasCol y_values = true →
       df.hasCol value_column = true → x_axis ≠ value_column → 0 ≤ n_points →
       ∃ fig s, plot_bar_chart df x_axis y_values title color value_column
           scale_factor n_points = .ok fig ∧
         fig.series = [s] ∧
         s.xs = (df.col x_axis).drop (df.rows.length - n_points.toNat)) := by
  refine ⟨?_, ?_, ?_⟩
  · intro df date_col y_values y_format title color n_points tick_angle
      date_format hd hy
    rw [plot_line_chart_eq df _ _ _ _ _ _ _ _ hd]
    rw [lineFigure_ok _ _ _ _ _ _ _ _ (by simp [hd]) (by simp [hy])]
    exact ⟨_, _, rfl, rfl, windowed_col_chain df date_col n_points⟩
  · intro df date_col y1_col y2_col title y1_name y2_name y1_color y2_color
      y1_format y2_format date_format tick_angle n_points hd h1 h2
    rw [plot_dual_line_chart_eq df _ _ _ _ _ _ _ _ _ _ _ _ _ hd]
    rw [dualFigure_ok _ _ _ _ _ _ _ _ _ _ _ _ _ (by simp [hd]) (by simp [h1])
      (by simp [h2])]
    exact ⟨_, _, _, rfl, rfl, windowed_col_chain df date_col n_points,
      windowed_col_chain df date_col n_points⟩
  · intro df x_axis y_values title color value_column scale_factor n_points hx
      hy hv hxv hn
    rw [plot_bar_chart_eq df _ _ _ _ _ _ _ hv]
    rw [barFigure_ok _ _ _ _ _ (by simp [hx]) (by simp [hy])]
    refine ⟨_, _, rfl, rfl, ?_⟩
    rw [tailI_col _ _ _ hn, scaleBy_rows_length,
      scaleBy_col_ne df value_column x_axis scale_factor
        (colIdx_ne_of_ne df value_column x_axis hv hx (Ne.symm hxv))]

/-- C2 amended witness: the three parts instantiated at concrete unsorted
frames. -/
theorem C2_output_sorted_amended_witness :
    (∃ fig s, plot_line_chart demoRows3 "date" "v" FORMAT_TEMPLATES_number
        "Line Chart" CHART_COLORS_orange 12 45 CHART_DEFAULTS_date_format =
        .ok fig ∧ fig.series = [s] ∧ chainLeb s.xs = true) ∧
    (∃ fig s1 s2, plot_dual_line_chart dualRows "date" "Value1" "Value2" "Dual"
        "Primary Metric" "Secondary Metric" CHART_COLORS_blue CHART_COLORS_gray
        FORMAT_TEMPLATES_number FORMAT_TEMPLATES_percentage
        CHART_DEFAULTS_date_format 45 12 = .ok fig ∧
      fig.series = [s1, s2] ∧ chainLeb s1.xs = true ∧ chainLeb s2.xs = true) ∧
    (∃ fig s, plot_bar_chart barRows "date" "Monto_Efectivo" "Bar Chart"
        CHART_COLORS_orange "Monto_Efectivo" 1000000 12 = .ok fig ∧
      fig.series = [s] ∧
      s.xs = (barRows.col "date").drop (barRows.rows.length - (12 : Int).toNat)) :=
  ⟨C2_output_sorted_amended.1 demoRows3 "date" "v" FORMAT_TEMPLATES_number
      "Line Chart" CHART_COLORS_orange 12 45 CHART_DEFAULTS_date_format
      (by decide) (by decide),
   C2_output_sorted_amended.2.1 dualRows "date" "Value1" "Value2" "Dual"
      "Primary Metric" "Secondary Metric" CHART_COLORS_blue CHART_COLORS_gray
      FORMAT_TEMPLATES_number FORMAT_TEMPLATES_percentage
      CHART_DEFAULTS_date_format 45 12 (by decide) (by decide) (by decide),
   C2_output_sorted_amended.2.2 barRows "date" "Monto_Efectivo" "Bar Chart"
      CHART_COLORS_orange "Monto_Efectivo" 1000000 12 (by decide) (by decide)
      (by decide) (by decide) (by decide)⟩

/-- C3 counterexample: with n_points = 0 (and also -1) each builder returns
a chart rather than failing — there is no InvalidConfig validation in the
code. -/
theorem C3_invalid_config_counterexample :
    isOkB (plot_line_chart demoRows3 "date" "v" FORMAT_TEMPLATES_number
        "Line Chart" CHART_COLORS_orange 0 45 CHART_DEFAULTS_date_format) = true ∧
    isOkB (plot_line_chart demoRows3 "date" "v" FORMAT_TEMPLATES_number
        "Line Chart" CHART_COLORS_orange (-1) 45 CHART_DEFAULTS_date_format) =
      true ∧
    isOkB (plot_dual_line_chart dualRows "date" "Value1" "Value2" "Dual"
        "Primary Metric" "Secondary Metric" CHART_COLORS_blue CHART_COLORS_gray
        FORMAT_TEMPLATES_number FORMAT_TEMPLATES_percentage
        CHART_DEFAULTS_date_format 45 0) = true ∧
    isOkB (plot_bar_chart barRows "date" "Monto_Efectivo" "Bar Chart"
        CHART_COLORS_orange "Monto_Efectivo" 1000000 0) = true := by
  refine ⟨rfl, rfl, rfl, rfl⟩

/-- C3 amended: for n_points ≤ 0 no builder raises any error when the named
columns exist; the window is the dataframe tail of n_points, which holds no
rows for n_points = 0 and all rows but the first |n_points| for negative
n_points, and a chart over that window is returned. -/
theorem C3_invalid_config_amended :
    (∀ (df : Frame) (date_col y_values y_format title color : String)
       (n_points tick_angle : Int) (date_format : String),
       df.hasCol date_col = true → df.hasCol y_values = true → n_points ≤ 0 →
       ∃ fig s, plot_line_chart df date_col y_values y_format title color
           n_points tick_angle date_format = .ok fig ∧
         fig.series = [s] ∧
         s.xs.length = df.rows.length -
           (if n_points = 0 then df.rows.length else (-n_points).toNat)) ∧
    (∀ (df : Frame) (date_col y1_col y2_col title y1_name y2_name y1_color
        y2_color y1_format y2_format date_format : String)
       (tick_angle n_points : Int),
       df.hasCol date_col = true → df.hasCol y1_col = true →
       df.hasCol y2_col = true → n_points ≤ 0 →
       ∃ fig s1 s2, plot_dual_line_chart df date_col y1_col y2_col title y1_name
           y2_name y1_color y2_color y1_format y2_format date_format tick_angle
           n_points = .ok fig ∧
         fig.series = [s1, s2] ∧
         s1.xs.length = df.rows.length -
           (if n_points = 0 then df.rows.length else (-n_points).toNat)) ∧
    (∀ (df : Frame) (x_axis y_values title color value_column : String)
       (scale_factor : ℚ) (n_points : Int),
       df.hasCol x_axis = true → df.hasCol y_values = true →
       df.hasCol value_column = true → n_points ≤ 0 →
       ∃ fig s, plot_bar_chart df x_axis y_values title color value_column
           scale_factor n_points = .ok fig ∧
         fig.series = [s] ∧
         s.xs.length = df.rows.length -
           (if n_points = 0 then df.rows.length else (-n_points).toNat)) := by
  refine ⟨?_, ?_, ?_⟩
  · intro df date_col y_values y_format title color n_points tick_angle
      date_format hd hy hn
    rw [plot_line_chart_eq df _ _ _ _ _ _ _ _ hd]
    rw [lineFigure_ok _ _ _ _ _ _ _ _ (by simp [hd]) (by simp [hy])]
    refine ⟨_, _, rfl, rfl, ?_⟩
    rw [Frame.col_length, tailI_rows_length_nonpos _ _ hn, sortBy_rows_length]
  · intro df date_col y1_col y2_col title y1_name y2_name y1_color y2_color
      y1_format y2_format date_format tick_angle n_points hd h1 h2 hn
    rw [plot_dual_line_chart_eq df _ _ _ _ _ _ _ _ _ _ _ _ _ hd]
    rw [dualFigure_ok _ _ _ _ _ _ _ _ _ _ _ _ _ (by simp [hd]) (by simp [h1])
      (by simp [h2])]
    refine ⟨_, _, _, rfl, rfl, ?_⟩
    rw [Frame.col_length, tailI_rows_length_nonpos _ _ hn, sortBy_rows_length]
  · intro df x_axis y_values title color value_column scale_factor n_points hx
      hy hv hn
    rw [plot_bar_chart_eq df _ _ _ _ _ _ _ hv]
    rw [barFigure_ok _ _ _ _ _ (by simp [hx]) (by simp [hy])]
    refine ⟨_, _, rfl, rfl, ?_⟩
    rw [Frame.col_length, tailI_rows_length_nonpos _ _ hn, scaleBy_rows_length]

/-- C3 amended witness: the empty window at n_points = 0 and the
drop-the-first-row window at n_points = -1, on concrete frames. -/
theorem C3_invalid_config_amended_witness :
    (∃ fig s, plot_line_chart demoRows3 "date" "v" FORMAT_TEMPLATES_number
        "Line Chart" CHART_COLORS_orange 0 45 CHART_DEFAULTS_date_format =
        .ok fig ∧ fig.series = [s] ∧
      s.xs.length = demoRows3.rows.length -
        (if (0 : Int) = 0 then demoRows3.rows.length else (-(0 : Int)).toNat)) ∧
    (∃ fig s1 s2, plot_dual_line_chart dualRows "date" "Value1" "Value2" "Dual"
        "Primary Metric" "Secondary Metric" CHART_COLORS_blue CHART_COLORS_gray
        FORMAT_TEMPLATES_number FORMAT_TEMPLATES_percentage
        CHART_DEFAULTS_date_format 45 (-1) = .ok fig ∧
      fig.series = [s1, s2] ∧
      s1.xs.length = dualRows.rows.length -
        (if (-1 : Int) = 0 then dualRows.rows.length else (-(-1 : Int)).toNat)) ∧
    (∃ fig s, plot_bar_chart barRows "date" "Monto_Efectivo" "Bar Chart"
        CHART_COLORS_orange "Monto_Efectivo" 1000000 0 = .ok fig ∧
      fig.series = [s] ∧
      s.xs.length = barRows.rows.length -
        (if (0 : Int) = 0 then barRows.rows.length else (-(0 : Int)).toNat)) :=
  ⟨C3_invalid_config_amended.1 demoRows3 "date" "v" FORMAT_TEMPLATES_number
      "Line Chart" CHART_COLORS_orange 0 45 CHART_DEFAULTS_date_format
      (by decide) (by decide) (by decide),
   C3_invalid_config_amended.2.1 dualRows "date" "Value1" "Value2" "Dual"
      "Primary Metric" "Secondary Metric" CHART_COLORS_blue CHART_COLORS_gray
      FORMAT_TEMPLATES_number FORMAT_TEMPLATES_percentage
      CHART_DEFAULTS_date_format 45 (-1) (by decide) (by decide) (by decide)
      (by decide),
   C3_invalid_config_amended.2.2 barRows "date" "Monto_Efectivo" "Bar Chart"
      CHART_COLORS_orange "Monto_Efectivo" 1000000 0 (by decide) (by decide)
      (by decide) (by decide)⟩

/-- C4 counterexample: a table with only a date column makes
plot_line_chart fail on the missing y column with the plotting library's
ValueError, which is not a ColumnNotFound error. -/
theorem C4_column_not_found_counterexample :
    plot_line_chart demoRows3 "date" "missing" FORMAT_TEMPLATES_number
        "Line Chart" CHART_COLORS_orange 12 45 CHART_DEFAULTS_date_format =
      .error (.plotlyValueError "y" "missing") ∧
    PlotError.isColumnNotFound (.plotlyValueError "y" "missing") = false := by
  refine ⟨rfl, rfl⟩

/-- C4 amended: a missing column makes every builder fail with no figure
constructed, but the error kind depends on which library touches the column
first: the sort/date column of the line and dual charts, every column of the
dual chart, and value_column of the bar chart are read by the dataframe
library and raise ColumnNotFound naming the exact column, while the y column
of the line chart and the x and y columns of the bar chart are resolved by
the plotting library and raise its ValueError naming the argument and the
column instead. -/
theorem C4_column_not_found_amended :
    (∀ (df : Frame) (date_col y_values y_format title color : String)
       (n_points tick_angle : Int) (date_format : String),
       df.hasCol date_col = false →
       plot_line_chart df date_col y_values y_format title color n_points
         tick_angle date_format = .error (.columnNotFound date_col)) ∧
    (∀ (df : Frame) (date_col y_values y_format title color : String)
       (n_points tick_angle : Int) (date_format : String),
       df.hasCol date_col = true → df.hasCol y_values = false →
       plot_line_chart df date_col y_values y_format title color n_points
         tick_angle date_format = .error (.plotlyValueError "y" y_values)) ∧
    (∀ (df : Frame) (date_col y1_col y2_col title y1_name y2_name y1_color
        y2_color y1_format y2_format date_format : String)
       (tick_angle n_points : Int),
       df.hasCol date_col = false →
       plot_dual_line_chart df date_col y1_col y2_col title y1_name y2_name
         y1_color y2_color y1_format y2_format date_format tick_angle n_points =
         .error (.columnNotFound date_col)) ∧
    (∀ (df : Frame) (date_col y1_col y2_col title y1_name y2_name y1_color
        y2_color y1_format y2_format date_format : String)
       (tick_angle n_points : Int),
       df.hasCol date_col = true → df.hasCol y1_col = false →
       plot_dual_line_chart df date_col y1_col y2_col title y1_name y2_name
         y1_color y2_color y1_format y2_format date_format tick_angle n_points =
         .error (.columnNotFound y1_col)) ∧
    (∀ (df : Frame) (date_col y1_col y2_col title y1_name y2_name y1_color
        y2_color y1_format y2_format date_format : String)
       (tick_angle n_points : Int),
       df.hasCol date_col = true → df.hasCol y1_col = true →
       df.hasCol y2_col = false →
       plot_dual_line_chart df date_col y1_col y2_col title y1_name y2_name
         y1_color y2_color y1_format y2_format date_format tick_angle n_points =
         .error (.columnNotFound y2_col)) ∧
    (∀ (df : Frame) (x_axis y_values title color value_column : String)
       (scale_factor : ℚ) (n_points : Int),
       df.hasCol value_column = false →
       plot_bar_chart df x_axis y_values title color value_column scale_factor
         n_points = .error (.columnNotFound value_column)) ∧
    (∀ (df : Frame) (x_axis y_values title color value_column : String)
       (scale_factor : ℚ) (n_points : Int),
       df.hasCol value_column = true → df.hasCol x_axis = false →
       plot_bar_chart df x_axis y_values title color value_column scale_factor
         n_points = .error (.plotlyValueError "x" x_axis)) ∧
    (∀ (df : Frame) (x_axis y_values title color value_column : String)
       (scale_factor : ℚ) (n_points : Int),
       df.hasCol value_column = true → df.hasCol x_axis = true →
       df.hasCol y_values = false →
       plot_bar_chart df x_axis y_values title color value_column scale_factor
         n_points = .error (.plotlyValueError "y" y_values)) := by
  refine ⟨?_, ?_, ?_, ?_, ?_, ?_, ?_, ?_⟩
  · intro df date_col y_values y_format title color n_points tick_angle
      date_format hd
    simp [plot_line_chart, Frame.sortE, hd]
  · intro df date_col y_values y_format title color n_points tick_angle
      date_format hd hy
    rw [plot_line_chart_eq df _ _ _ _ _ _ _ _ hd]
    simp [lineFigure, pxCol, hd, hy]
  · intro df date_col y1_col y2_col title y1_name y2_name y1_color y2_color
      y1_format y2_format date_format tick_angle n_points hd
    simp [plot_dual_line_chart, Frame.sortE, hd]
  · intro df date_col y1_col y2_col title y1_name y2_name y1_color y2_color
      y1_format y2_format date_format tick_angle n_points hd h1
    rw [plot_dual_line_chart_eq df _ _ _ _ _ _ _ _ _ _ _ _ _ hd]
    simp [dualFigure, Frame.getColE, hd, h1]
  · intro df date_col y1_col y2_col title y1_name y2_name y1_color y2_color
      y1_format y2_format date_format tick_angle n_points hd h1 h2
    rw [plot_dual_line_chart_eq df _ _ _ _ _ _ _ _ _ _ _ _ _ hd]
    simp [dualFigure, Frame.getColE, hd, h1, h2]
  · intro df x_axis y_values title color value_column scale_factor n_points hv
    simp [plot_bar_chart, Frame.withColDivE, hv]
  · intro df x_axis y_values title color value_column scale_factor n_points hv hx
    rw [plot_bar_chart_eq df _ _ _ _ _ _ _ hv]
    simp [barFigure, pxCol, hx]
  · intro df x_axis y_values title color value_column scale_factor n_points hv
      hx hy
    rw [plot_bar_chart_eq df _ _ _ _ _ _ _ hv]
    simp [barFigure, pxCol, hx, hy]

/-- C4 amended witness: each error case instantiated on a concrete frame
with a concrete missing column. -/
theorem C4_column_not_found_amended_witness :
    plot_line_chart demoRows3 "nodate" "v" FORMAT_TEMPLATES_number "Line Chart"
        CHART_COLORS_orange 12 45 CHART_DEFAULTS_date_format =
      .error (.columnNotFound "nodate") ∧
    plot_line_chart demoRows3 "date" "missing" FORMAT_TEMPLATES_number
        "Line Chart" CHART_COLORS_orange 12 45 CHART_DEFAULTS_date_format =
      .error (.plotlyValueError "y" "missing") ∧
    plot_dual_line_chart dualRows "nodate" "Value1" "Value2" "Dual" "a" "b"
        CHART_COLORS_blue CHART_COLORS_gray FORMAT_TEMPLATES_number
        FORMAT_TEMPLATES_percentage CHART_DEFAULTS_date_format 45 12 =
      .error (.columnNotFound "nodate") ∧
    plot_dual_line_chart dualRows "date" "missing1" "Value2" "Dual" "a" "b"
        CHART_COLORS_blue CHART_COLORS_gray FORMAT_TEMPLATES_number
        FORMAT_TEMPLATES_percentage CHART_DEFAULTS_date_format 45 12 =
      .error (.columnNotFound "missing1") ∧
    plot_dual_line_chart dualRows "date" "Value1" "missing2" "Dual" "a" "b"
        CHART_COLORS_blue CHART_COLORS_gray FORMAT_TEMPLATES_number
        FORMAT_TEMPLATES_percentage CHART_DEFAULTS_date_format 45 12 =
      .error (.columnNotFound "missing2") ∧
    plot_bar_chart barRows "date" "Monto_Efectivo" "Bar Chart"
        CHART_COLORS_orange "missingv" 1000000 12 =
      .error (.columnNotFound "missingv") ∧
    plot_bar_chart barRows "missingx" "Monto_Efectivo" "Bar Chart"
        CHART_COLORS_orange "Monto_Efectivo" 1000000 12 =
      .error (.plotlyValueError "x" "missingx") ∧
    plot_bar_chart barRows "date" "missingy" "Bar Chart" CHART_COLORS_orange
        "Monto_Efectivo" 1000000 12 =
      .error (.plotlyValueError "y" "missingy") :=
  ⟨C4_column_not_found_amended.1 demoRows3 "nodate" "v" FORMAT_TEMPLATES_number
      "Line Chart" CHART_COLORS_orange 12 45 CHART_DEFAULTS_date_format
      (by decide),
   C4_column_not_found_amended.2.1 demoRows3 "date" "missing"
      FORMAT_TEMPLATES_number "Line Chart" CHART_COLORS_orange 12 45
      CHART_DEFAULTS_date_format (by decide) (by decide),
   C4_column_not_found_amended.2.2.1 dualRows "nodate" "Value1" "Value2" "Dual"
      "a" "b" CHART_COLORS_blue CHART_COLORS_gray FORMAT_TEMPLATES_number
      FORMAT_TEMPLATES_percentage CHART_DEFAULTS_date_format 45 12 (by decide),
   C4_column_not_found_amended.2.2.2.1 dualRows "date" "missing1" "Value2"
      "Dual" "a" "b" CHART_COLORS_blue CHART_COLORS_gray FORMAT_TEMPLATES_number
      FORMAT_TEMPLATES_percentage CHART_DEFAULTS_date_format 45 12 (by decide)
      (by decide),
   C4_column_not_found_amended.2.2.2.2.1 dualRows "date" "Value1" "missing2"
      "Dual" "a" "b" CHART_COLORS_blue CHART_COLORS_gray FORMAT_TEMPLATES_number
      FORMAT_TEMPLATES_percentage CHART_DEFAULTS_date_format 45 12 (by decide)
      (by decide) (by decide),
   C4_column_not_found_amended.2.2.2.2.2.1 barRows "date" "Monto_Efectivo"
      "Bar Chart" CHART_COLORS_orange "missingv" 1000000 12 (by decide),
   C4_column_not_found_amended.2.2.2.2.2.2.1 barRows "missingx" "Monto_Efectivo"
      "Bar Chart" CHART_COLORS_orange "Monto_Efectivo" 1000000 12 (by decide)
      (by decide),
   C4_column_not_found_amended.2.2.2.2.2.2.2 barRows "date" "missingy"
      "Bar Chart" CHART_COLORS_orange "Monto_Efectivo" 1000000 12 (by decide)
      (by decide) (by decide)⟩

/-- C5: plot_bar_chart scales the value column before windowing — its
plotted values, when the plotted column is the value column, are the scaled
cells of the last n_points input rows — and concretely scale_factor
1,000,000 turns an input value of 2,500,000 into 2.5 under the fixed
currency text template. -/
theorem C5_bar_scale_before_window :
    (∀ (df : Frame) (x_axis title color value_column : String)
       (scale_factor : ℚ) (n_points : Int),
       df.hasCol x_axis = true → df.hasCol value_column = true → 0 ≤ n_points →
       ∃ fig s, plot_bar_chart df x_axis value_column title color value_column
           scale_factor n_points = .ok fig ∧
         fig.series = [s] ∧
         s.ys = ((df.col value_column).map (Value.scaleDiv scale_factor)).drop
           (df.rows.length - n_points.toNat) ∧
         s.texttemplate = barTemplate) ∧
    firstSeries (plot_bar_chart barRow25 "date" "Monto_Efectivo" "Bar Chart"
        CHART_COLORS_orange "Monto_Efectivo" 1000000 12) =
      { sname := none, xs := [.vdate dJan], ys := [.vnum ((5 : ℚ) / 2)],
        text := [], texttemplate := barTemplate, textposition := "outside",
        color := CHART_COLORS_orange } := by
  constructor
  · intro df x_axis title color value_column scale_factor n_points hx hv hn
    rw [plot_bar_chart_eq df _ _ _ _ _ _ _ hv]
    rw [barFigure_ok _ _ _ _ _ (by simp [hx]) (by simp [hv])]
    have hys : ((df.scaleBy value_column scale_factor).tailI n_points).col
        value_column =
        ((df.col value_column).map (Value.scaleDiv scale_factor)).drop
          (df.rows.length - n_points.toNat) := by
      rw [tailI_col _ _ _ hn, scaleBy_rows_length, scaleBy_col_eq]
    exact ⟨_, _, rfl, rfl, hys, rfl⟩
  · have h25 : ((2500000 : ℚ) / 1000000) = (5 : ℚ) / 2 := by norm_num
    simp [firstSeries, plot_bar_chart, Frame.withColDivE, Frame.scaleBy,
      Frame.tailI, barFigure, pxCol, Frame.getColE, Frame.hasCol, Frame.col,
      Frame.colIdx, barRow25, applyAt, cellAt, Value.scaleDiv, h25]

/-- C5 witness: the general statement instantiated at the one-row frame with
value 2,500,000 and the default scale factor. -/
theorem C5_bar_scale_before_window_witness :
    ∃ fig s, plot_bar_chart barRow25 "date" "Monto_Efectivo" "Bar Chart"
        CHART_COLORS_orange "Monto_Efectivo" 1000000 12 = .ok fig ∧
      fig.series = [s] ∧
      s.ys = ((barRow25.col "Monto_Efectivo").map (Value.scaleDiv 1000000)).drop
        (barRow25.rows.length - (12 : Int).toNat) ∧
      s.texttemplate = barTemplate :=
  C5_bar_scale_before_window.1 barRow25 "date" "Bar Chart" CHART_COLORS_orange
    "Monto_Efectivo" 1000000 12 (by decide) (by decide) (by decide)

/-- C6: the bar chart's tick labels always use the fixed month + full-year
format, whatever arguments the call passes, while the line chart formats its
ticks with its per-call date_format argument, whose default is month +
two-digit year; the two formats differ, as January 2022 shows. -/
theorem C6_bar_tick_format_fixed :
    (∀ (df : Frame) (x_axis y_values title color value_column : String)
       (scale_factor : ℚ) (n_points : Int),
       df.hasCol x_axis = true → df.hasCol y_values = true →
       df.hasCol value_column = true → x_axis ≠ value_column → 0 ≤ n_points →
       ∃ fig, plot_bar_chart df x_axis y_values title color value_column
           scale_factor n_points = .ok fig ∧
         fig.xaxis.ticktext =
           ((df.col x_axis).drop (df.rows.length - n_points.toNat)).map
             (Value.strf "%B %Y")) ∧
    (∀ (df : Frame) (date_col y_values y_format title color : String)
       (n_points tick_angle : Int) (date_format : String),
       df.hasCol date_col = true → df.hasCol y_values = true →
       ∃ fig, plot_line_chart df date_col y_values y_format title color n_points
           tick_angle date_format = .ok fig ∧
         fig.xaxis.ticktext =
           (((df.sortBy date_col).tailI n_points).col date_col).map
             (Value.strf date_format)) ∧
    CHART_DEFAULTS_date_format = "%B %y" ∧
    Value.strf "%B %Y" (.vdate dJan) = "January 2022" ∧
    Value.strf CHART_DEFAULTS_date_format (.vdate dJan) = "January 22" ∧
    "%B %Y" ≠ CHART_DEFAULTS_date_format := by
  refine ⟨?_, ?_, rfl, by decide, by decide, by decide⟩
  · intro df x_axis y_values title color value_column scale_factor n_points hx
      hy hv hxv hn
    rw [plot_bar_chart_eq df _ _ _ _ _ _ _ hv]
    rw [barFigure_ok _ _ _ _ _ (by simp [hx]) (by simp [hy])]
    refine ⟨_, rfl, ?_⟩
    rw [tailI_col _ _ _ hn, scaleBy_rows_length,
      scaleBy_col_ne df value_column x_axis scale_factor
        (colIdx_ne_of_ne df value_column x_axis hv hx (Ne.symm hxv))]
  · intro df date_col y_values y_format title color n_points tick_angle
      date_format hd hy
    rw [plot_line_chart_eq df _ _ _ _ _ _ _ _ hd]
    rw [lineFigure_ok _ _ _ _ _ _ _ _ (by simp [hd]) (by simp [hy])]
    exact ⟨_, rfl, rfl⟩

/-- C6 witness: both universal parts instantiated on concrete frames. -/
theorem C6_bar_tick_format_fixed_witness :
    (∃ fig, plot_bar_chart barRows "date" "Monto_Efectivo" "Bar Chart"
        CHART_COLORS_orange "Monto_Efectivo" 1000000 12 = .ok fig ∧
      fig.xaxis.ticktext =
        ((barRows.col "date").drop (barRows.rows.length - (12 : Int).toNat)).map
          (Value.strf "%B %Y")) ∧
    (∃ fig, plot_line_chart demoRows3 "date" "v" FORMAT_TEMPLATES_number
        "Line Chart" CHART_COLORS_orange 12 45 CHART_DEFAULTS_date_format =
        .ok fig ∧
      fig.xaxis.ticktext =
        (((demoRows3.sortBy "date").tailI 12).col "date").map
          (Value.strf CHART_DEFAULTS_date_format)) :=
  ⟨C6_bar_tick_format_fixed.1 barRows "date" "Monto_Efectivo" "Bar Chart"
      CHART_COLORS_orange "Monto_Efectivo" 1000000 12 (by decide) (by decide)
      (by decide) (by decide) (by decide),
   C6_bar_tick_format_fixed.2.1 demoRows3 "date" "v" FORMAT_TEMPLATES_number
      "Line Chart" CHART_COLORS_orange 12 45 CHART_DEFAULTS_date_format
      (by decide) (by decide)⟩

/-- C7: the two series of plot_dual_line_chart carry independent text
templates — the first is the percent interpolation of y1_format, the second
of y2_format, so distinct formats give distinct templates — while both
series share the same x data and the same axis tick values. -/
theorem C7_dual_independent_formats (df : Frame) (date_col y1_col y2_col title
    y1_name y2_name y1_color y2_color y1_format y2_format date_format : String)
    (tick_angle n_points : Int)
    (hd : df.hasCol date_col = true) (h1 : df.hasCol y1_col = true)
    (h2 : df.hasCol y2_col = true) :
    ∃ fig s1 s2, plot_dual_line_chart df date_col y1_col y2_col title y1_name
        y2_name y1_color y2_color y1_format y2_format date_format tick_angle
        n_points = .ok fig ∧
      fig.series = [s1, s2] ∧
      s1.texttemplate = "%" ++ y1_format ∧
      s2.texttemplate = "%" ++ y2_format ∧
      s1.xs = s2.xs ∧ fig.xaxis.tickvals = s1.xs ∧
      (y1_format ≠ y2_format → s1.texttemplate ≠ s2.texttemplate) := by
  rw [plot_dual_line_chart_eq df _ _ _ _ _ _ _ _ _ _ _ _ _ hd]
  rw [dualFigure_ok _ _ _ _ _ _ _ _ _ _ _ _ _ (by simp [hd]) (by simp [h1])
    (by simp [h2])]
  refine ⟨_, _, _, rfl, rfl, rfl, rfl, rfl, rfl, ?_⟩
  intro hne heq
  apply hne
  apply String.ext
  have := congrArg String.data heq
  simpa [String.data_append] using this

/-- C7 witness: instantiated with the percentage and number templates, which
are distinct. -/
theorem C7_dual_independent_formats_witness :
    ∃ fig s1 s2, plot_dual_line_chart dualRows "date" "Value1" "Value2" "Dual"
        "Primary Metric" "Secondary Metric" CHART_COLORS_blue CHART_COLORS_gray
        FORMAT_TEMPLATES_percentage FORMAT_TEMPLATES_number
        CHART_DEFAULTS_date_format 45 12 = .ok fig ∧
      fig.series = [s1, s2] ∧
      s1.texttemplate = "%" ++ FORMAT_TEMPLATES_percentage ∧
      s2.texttemplate = "%" ++ FORMAT_TEMPLATES_number ∧
      s1.xs = s2.xs ∧ fig.xaxis.tickvals = s1.xs ∧
      (FORMAT_TEMPLATES_percentage ≠ FORMAT_TEMPLATES_number →
        s1.texttemplate ≠ s2.texttemplate) :=
  C7_dual_independent_formats dualRows "date" "Value1" "Value2" "Dual"
    "Primary Metric" "Secondary Metric" CHART_COLORS_blue CHART_COLORS_gray
    FORMAT_TEMPLATES_percentage FORMAT_TEMPLATES_number
    CHART_DEFAULTS_date_format 45 12 (by decide) (by decide) (by decide)

/-- C9 counterexample: a window holding one distinct date twice gets two
tick labels, not one per distinct date — the labels are one per row. -/
theorem C9_tick_labels_counterexample :
    isOkB (plot_line_chart dupRows "date" "v" FORMAT_TEMPLATES_number
        "Line Chart" CHART_COLORS_orange 12 45 CHART_DEFAULTS_date_format) =
      true ∧
    tickVals (plot_line_chart dupRows "date" "v" FORMAT_TEMPLATES_number
        "Line Chart" CHART_COLORS_orange 12 45 CHART_DEFAULTS_date_format) =
      [.vdate dJan, .vdate dJan] ∧
    tickTexts (plot_line_chart dupRows "date" "v" FORMAT_TEMPLATES_number
        "Line Chart" CHART_COLORS_orange 12 45 CHART_DEFAULTS_date_format) =
      ["January 22", "January 22"] := by
  refine ⟨rfl, by decide, by decide⟩

/-- C9 amended: the tick labels of plot_line_chart contain exactly one
formatted string per data point of the window — the date of each point
formatted with date_format, in the order of the points — which is one per
distinct date exactly when the window's dates are distinct. -/
theorem C9_tick_labels_amended (df : Frame)
    (date_col y_values y_format title color : String)
    (n_points tick_angle : Int) (date_format : String)
    (hd : df.hasCol date_col = true) (hy : df.hasCol y_values = true) :
    ∃ fig s, plot_line_chart df date_col y_values y_format title color n_points
        tick_angle date_format = .ok fig ∧
      fig.series = [s] ∧
      fig.xaxis.ticktext = s.xs.map (Value.strf date_format) ∧
      fig.xaxis.ticktext.length = s.xs.length := by
  rw [plot_line_chart_eq df _ _ _ _ _ _ _ _ hd]
  rw [lineFigure_ok _ _ _ _ _ _ _ _ (by simp [hd]) (by simp [hy])]
  exact ⟨_, _, rfl, rfl, rfl, by simp⟩

/-- C9 amended witness: instantiated at the duplicate-date frame. -/
theorem C9_tick_labels_amended_witness :
    ∃ fig s, plot_line_chart dupRows "date" "v" FORMAT_TEMPLATES_number
        "Line Chart" CHART_COLORS_orange 12 45 CHART_DEFAULTS_date_format =
        .ok fig ∧
      fig.series = [s] ∧
      fig.xaxis.ticktext = s.xs.map (Value.strf CHART_DEFAULTS_date_format) ∧
      fig.xaxis.ticktext.length = s.xs.length :=
  C9_tick_labels_amended dupRows "date" "v" FORMAT_TEMPLATES_number "Line Chart"
    CHART_COLORS_orange 12 45 CHART_DEFAULTS_date_format (by decide) (by decide)

/-- C10: plot_bar_chart divides the separate value_column parameter, not the
plotted y_values column: when they differ, the plotted values are the
unscaled cells of the y_values column of the last n_points input rows. -/
theorem C10_bar_scales_value_column_only (df : Frame)
    (x_axis y_values title color value_column : String) (scale_factor : ℚ)
    (n_points : Int)
    (hx : df.hasCol x_axis = true) (hy : df.hasCol y_values = true)
    (hv : df.hasCol value_column = true) (hne : y_values ≠ value_column)
    (hn : 0 ≤ n_points) :
    ∃ fig s, plot_bar_chart df x_axis y_values title color value_column
        scale_factor n_points = .ok fig ∧
      fig.series = [s] ∧
      s.ys = (df.col y_values).drop (df.rows.length - n_points.toNat) := by
  rw [plot_bar_chart_eq df _ _ _ _ _ _ _ hv]
  rw [barFigure_ok _ _ _ _ _ (by simp [hx]) (by simp [hy])]
  have hys : ((df.scaleBy value_column scale_factor).tailI n_points).col
      y_values =
      (df.col y_values).drop (df.rows.length - n_points.toNat) := by
    rw [tailI_col _ _ _ hn, scaleBy_rows_length,
      scaleBy_col_ne df value_column y_values scale_factor
        (colIdx_ne_of_ne df value_column y_values hv hy (Ne.symm hne))]
  exact ⟨_, _, rfl, rfl, hys⟩

/-- C10 witness: a frame whose plotted column v differs from the monetary
column keeps v unscaled. -/
theorem C10_bar_scales_value_column_only_witness :
    ∃ fig s, plot_bar_chart barRowsDistinct "date" "v" "Bar Chart"
        CHART_COLORS_orange "Monto_Efectivo" 1000000 12 = .ok fig ∧
      fig.series = [s] ∧
      s.ys = (barRowsDistinct.col "v").drop
        (barRowsDistinct.rows.length - (12 : Int).toNat) :=
  C10_bar_scales_value_column_only barRowsDistinct "date" "v" "Bar Chart"
    CHART_COLORS_orange "Monto_Efectivo" 1000000 12 (by decide) (by decide)
    (by decide) (by decide) (by decide)

end Graficos
